import Mathlib

/-!
Verification of the desec_api domain client (`src/src/domain.rs`).

The repository is a thin REST client: six operations that each build one
HTTP request, hand it to a transport (`crate::Client`), and map the
response status to a typed result or error.  The data model (`Domain`,
`DNSSECKeyInfo`) is (de)serialized by serde derives with
`skip_serializing_if = "Option::is_none"` on every field and one rename
(`keyflags` → "flags").

We embed the operations as pure functions of the transport outcome, the
serde derives as functions between the structures and a JSON value type,
and the JSON text codec (serde_json, an external crate) as a renderer and
parser over that value type.
-/

/-- JSON values, the interchange type of the serde_json codec. -/
inductive Json where
  | str (s : String)
  | num (n : Int)
  | bool (b : Bool)
  | null
  | arr (elems : List Json)
  | obj (fields : List (String × Json))
deriving Repr

/-- Characters that JSON string syntax forces an encoder to escape. -/
def quoteChar : Char := Char.ofNat 34

def backslashChar : Char := Char.ofNat 92

def lbraceChar : Char := Char.ofNat 123

def rbraceChar : Char := Char.ofNat 125

/-- Hexadecimal digit for a value below 16. -/
def hexDigit (n : Nat) : Char :=
  if n < 10 then Char.ofNat (48 + n) else Char.ofNat (87 + n)

/-- Four-digit hexadecimal rendering used by the \u escape. -/
def hex4 (n : Nat) : String :=
  String.mk [hexDigit (n / 4096 % 16), hexDigit (n / 256 % 16),
    hexDigit (n / 16 % 16), hexDigit (n % 16)]

/-- JSON string escaping of one character (serde_json style). -/
def escapeChar (c : Char) : String :=
  if c = quoteChar then String.mk [backslashChar, quoteChar]
  else if c = backslashChar then String.mk [backslashChar, backslashChar]
  else if c = Char.ofNat 10 then String.mk [backslashChar, Char.ofNat 110]
  else if c = Char.ofNat 13 then String.mk [backslashChar, Char.ofNat 114]
  else if c = Char.ofNat 9 then String.mk [backslashChar, Char.ofNat 116]
  else if c.toNat < 32 then String.mk [backslashChar, Char.ofNat 117] ++ hex4 c.toNat
  else String.singleton c

/-- JSON string escaping. -/
def escapeString (s : String) : String :=
  String.join (s.toList.map escapeChar)

/-- A character a JSON encoder may copy verbatim into a string literal:
neither a quote, nor a backslash, nor a control character. -/
def plainChar (c : Char) : Prop :=
  c ≠ quoteChar ∧ c ≠ backslashChar ∧ 32 ≤ c.toNat

instance (c : Char) : Decidable (plainChar c) := by
  unfold plainChar; infer_instance

/-- Rendering a JSON value to text.  Whitespace follows the way the spec
prints bodies (one space after each colon, one after each comma). -/
def Json.render : Json → String
  | .str s => String.singleton quoteChar ++ escapeString s ++ String.singleton quoteChar
  | .num n => toString n
  | .bool b => if b then "true" else "false"
  | .null => "null"
  | .arr elems => "[" ++
      String.intercalate ", " (elems.attach.map (fun e => Json.render e.1)) ++ "]"
  | .obj fields => String.singleton lbraceChar ++
      String.intercalate ", " (fields.attach.map (fun f =>
        String.singleton quoteChar ++ escapeString f.1.1 ++ String.singleton quoteChar
          ++ ": " ++ Json.render f.1.2)) ++ String.singleton rbraceChar
termination_by j => sizeOf j
decreasing_by
· have h := List.sizeOf_lt_of_mem e.2
  simp only [Json.arr.sizeOf_spec]
  omega
· have h := List.sizeOf_lt_of_mem f.2
  rcases f with ⟨⟨k, v⟩, hf⟩
  simp only [Json.obj.sizeOf_spec, Prod.mk.sizeOf_spec] at *
  omega

/-- Whitespace skipping of the JSON text codec. -/
def skipWs : List Char → List Char
  | [] => []
  | c :: cs =>
    if c = Char.ofNat 32 ∨ c = Char.ofNat 9 ∨ c = Char.ofNat 10 ∨ c = Char.ofNat 13 then
      skipWs cs
    else c :: cs

/-- Value of a hexadecimal digit. -/
def hexVal (c : Char) : Option Nat :=
  if 48 ≤ c.toNat ∧ c.toNat ≤ 57 then some (c.toNat - 48)
  else if 97 ≤ c.toNat ∧ c.toNat ≤ 102 then some (c.toNat - 87)
  else if 65 ≤ c.toNat ∧ c.toNat ≤ 70 then some (c.toNat - 55)
  else none

/-- Body of a JSON string literal, after the opening quote: unescapes until
the closing quote, returning the decoded string and the rest of the input. -/
def parseStringBody (cs : List Char) (acc : List Char) : Option (String × List Char) :=
  match cs with
  | [] => none
  | c :: rest =>
    if c = quoteChar then some (String.mk acc.reverse, rest)
    else if c = backslashChar then
      match rest with
      | [] => none
      | e :: rest2 =>
        if e = quoteChar then parseStringBody rest2 (quoteChar :: acc)
        else if e = backslashChar then parseStringBody rest2 (backslashChar :: acc)
        else if e = Char.ofNat 47 then parseStringBody rest2 (Char.ofNat 47 :: acc)
        else if e = Char.ofNat 110 then parseStringBody rest2 (Char.ofNat 10 :: acc)
        else if e = Char.ofNat 114 then parseStringBody rest2 (Char.ofNat 13 :: acc)
        else if e = Char.ofNat 116 then parseStringBody rest2 (Char.ofNat 9 :: acc)
        else if e = Char.ofNat 98 then parseStringBody rest2 (Char.ofNat 8 :: acc)
        else if e = Char.ofNat 102 then parseStringBody rest2 (Char.ofNat 12 :: acc)
        else if e = Char.ofNat 117 then
          match rest2 with
          | h1 :: h2 :: h3 :: h4 :: rest3 =>
            match hexVal h1, hexVal h2, hexVal h3, hexVal h4 with
            | some v1, some v2, some v3, some v4 =>
              parseStringBody rest3
                (Char.ofNat (v1 * 4096 + v2 * 256 + v3 * 16 + v4) :: acc)
            | _, _, _, _ => none
          | _ => none
        else none
    else if c.toNat < 32 then none
    else parseStringBody rest (c :: acc)

/-- Longest digit span at the head of the input. -/
def takeDigits : List Char → List Char × List Char
  | [] => ([], [])
  | c :: cs =>
    if c.isDigit then
      let p := takeDigits cs
      (c :: p.1, p.2)
    else ([], c :: cs)

/-- Decimal value of a digit list. -/
def digitsToNat (ds : List Char) : Nat :=
  ds.foldl (fun acc c => acc * 10 + (c.toNat - 48)) 0

/-- Whether the rest of the input starts a fraction or exponent (floating
point values, which the data model of this client never uses). -/
def startsFloat : List Char → Bool
  | [] => false
  | c :: _ => c = Char.ofNat 46 ∨ c = Char.ofNat 101 ∨ c = Char.ofNat 69

/-- What the recursive-descent parser is currently reading: a value, the
remaining items of an array, or the remaining members of an object. -/
inductive ParseMode where
  | value
  | items (acc : List Json)
  | fields (acc : List (String × Json))

/-- Recursive-descent JSON parser (the external serde_json codec,
restricted to integer numbers); the fuel dominates the recursion depth. -/
def parseJ : Nat → ParseMode → List Char → Option (Json × List Char)
  | 0, _, _ => none
  | fuel + 1, .value, cs =>
    match skipWs cs with
    | [] => none
    | c :: rest =>
      if c = quoteChar then
        match parseStringBody rest [] with
        | some p => some (Json.str p.1, p.2)
        | none => none
      else if c = lbraceChar then
        match skipWs rest with
        | [] => none
        | d :: rest2 =>
          if d = rbraceChar then some (Json.obj [], rest2)
          else parseJ fuel (.fields []) (d :: rest2)
      else if c = Char.ofNat 91 then
        match skipWs rest with
        | [] => none
        | d :: rest2 =>
          if d = Char.ofNat 93 then some (Json.arr [], rest2)
          else parseJ fuel (.items []) (d :: rest2)
      else if c = 't' then
        match rest with
        | 'r' :: 'u' :: 'e' :: rest2 => some (Json.bool true, rest2)
        | _ => none
      else if c = 'f' then
        match rest with
        | 'a' :: 'l' :: 's' :: 'e' :: rest2 => some (Json.bool false, rest2)
        | _ => none
      else if c = 'n' then
        match rest with
        | 'u' :: 'l' :: 'l' :: rest2 => some (Json.null, rest2)
        | _ => none
      else if c = Char.ofNat 45 then
        match takeDigits rest with
        | ([], _) => none
        | (ds, rest2) =>
          if startsFloat rest2 then none
          else some (Json.num (-(digitsToNat ds : Int)), rest2)
      else if c.isDigit then
        match takeDigits (c :: rest) with
        | (ds, rest2) =>
          if startsFloat rest2 then none
          else some (Json.num (digitsToNat ds : Int), rest2)
      else none
  | fuel + 1, .items acc, cs =>
    match parseJ fuel .value cs with
    | none => none
    | some (v, rest) =>
      match skipWs rest with
      | [] => none
      | c :: rest2 =>
        if c = Char.ofNat 44 then parseJ fuel (.items (v :: acc)) rest2
        else if c = Char.ofNat 93 then some (Json.arr (v :: acc).reverse, rest2)
        else none
  | fuel + 1, .fields acc, cs =>
    match skipWs cs with
    | [] => none
    | c :: rest =>
      if c = quoteChar then
        match parseStringBody rest [] with
        | none => none
        | some (k, rest2) =>
          match skipWs rest2 with
          | [] => none
          | d :: rest3 =>
            if d = Char.ofNat 58 then
              match parseJ fuel .value rest3 with
              | none => none
              | some (v, rest4) =>
                match skipWs rest4 with
                | [] => none
                | e :: rest5 =>
                  if e = Char.ofNat 44 then parseJ fuel (.fields ((k, v) :: acc)) rest5
                  else if e = rbraceChar then
                    some (Json.obj ((k, v) :: acc).reverse, rest5)
                  else none
            else none
      else none

/-- Parse a complete JSON document; trailing whitespace allowed, trailing
garbage rejected. -/
def jsonParse (s : String) : Option Json :=
  match parseJ (s.length + 1) .value s.toList with
  | some (v, rest) => if skipWs rest = [] then some v else none
  | none => none

/-- `DNSSECKeyInfo` from src/src/domain.rs lines 35-48: one DNSSEC key
attached to a domain.  Every field is an `Option` and is skipped during
serialization when `none`; `keyflags` is a u16 serialized under the JSON
name "flags". -/
structure DNSSECKeyInfo where
  dnskey : Option String
  ds : Option (List String)
  keyflags : Option (Fin 65536)
  keytype : Option String
  managed : Option Bool
deriving DecidableEq, Repr

/-- `Domain` from src/src/domain.rs lines 15-31: one hosted DNS zone.
Every field is an `Option` and is skipped during serialization when
`none`; `minimum_ttl` is a u16. -/
structure Domain where
  created : Option String
  keys : Option (List DNSSECKeyInfo)
  minimum_ttl : Option (Fin 65536)
  name : Option String
  published : Option String
  touched : Option String
  zonefile : Option String
deriving DecidableEq, Repr

/-- `DomainList` from src/src/domain.rs line 33. -/
abbrev DomainList := List Domain

/-- The serde `skip_serializing_if = "Option::is_none"` rule: a present
field contributes one member, an absent field contributes nothing. -/
def optEntry {α : Type} (k : String) (enc : α → Json) : Option α → List (String × Json)
  | some a => [(k, enc a)]
  | none => []

/-- Serialization of `DNSSECKeyInfo` as derived by serde: members in
declaration order, `none` fields omitted, `keyflags` renamed to "flags". -/
def DNSSECKeyInfo.toJson (x : DNSSECKeyInfo) : Json :=
  Json.obj (optEntry "dnskey" Json.str x.dnskey
    ++ optEntry "ds" (fun l => Json.arr (l.map Json.str)) x.ds
    ++ optEntry "flags" (fun f => Json.num (f.val : Int)) x.keyflags
    ++ optEntry "keytype" Json.str x.keytype
    ++ optEntry "managed" Json.bool x.managed)

/-- Serialization of `Domain` as derived by serde: members in declaration
order, `none` fields omitted. -/
def Domain.toJson (x : Domain) : Json :=
  Json.obj (optEntry "created" Json.str x.created
    ++ optEntry "keys" (fun l => Json.arr (l.map DNSSECKeyInfo.toJson)) x.keys
    ++ optEntry "minimum_ttl" (fun f => Json.num (f.val : Int)) x.minimum_ttl
    ++ optEntry "name" Json.str x.name
    ++ optEntry "published" Json.str x.published
    ++ optEntry "touched" Json.str x.touched
    ++ optEntry "zonefile" Json.str x.zonefile)

/-- Look up a struct field among the members of a JSON object: absent is a
legal outcome, a duplicate is an error (as in serde_json). -/
def getField (fs : List (String × Json)) (k : String) : Except String (Option Json) :=
  match fs.filter (fun f => f.1 = k) with
  | [] => Except.ok none
  | [f] => Except.ok (some f.2)
  | _ => Except.error ("duplicate field " ++ k)

def decodeString : Json → Except String String
  | .str s => .ok s
  | _ => .error "invalid type: expected a string"

def decodeU16 : Json → Except String (Fin 65536)
  | .num (Int.ofNat v) =>
    if h : v < 65536 then .ok ⟨v, h⟩
    else .error "invalid value: integer out of range of u16"
  | .num (Int.negSucc _) => .error "invalid value: integer out of range of u16"
  | _ => .error "invalid type: expected u16"

def decodeBool : Json → Except String Bool
  | .bool b => .ok b
  | _ => .error "invalid type: expected a boolean"

def decodeStringList : Json → Except String (List String)
  | .arr xs => xs.mapM decodeString
  | _ => .error "invalid type: expected a sequence"

/-- Decoding of one `Option` struct field as derived by serde: an absent
member and an explicit null both decode to `none`; a present value must
decode, and unknown members elsewhere in the object are ignored. -/
def decodeOptField {α : Type} (dec : Json → Except String α)
    (fs : List (String × Json)) (k : String) : Except String (Option α) :=
  match getField fs k with
  | .error e => .error e
  | .ok none => .ok none
  | .ok (some Json.null) => .ok none
  | .ok (some v) =>
    match dec v with
    | .ok a => .ok (some a)
    | .error e => .error e

/-- Deserialization of `DNSSECKeyInfo` as derived by serde. -/
def DNSSECKeyInfo.fromJson : Json → Except String DNSSECKeyInfo
  | .obj fs =>
    match decodeOptField decodeString fs "dnskey" with
    | .error e => .error e
    | .ok dnskey =>
      match decodeOptField decodeStringList fs "ds" with
      | .error e => .error e
      | .ok ds =>
        match decodeOptField decodeU16 fs "flags" with
        | .error e => .error e
        | .ok keyflags =>
          match decodeOptField decodeString fs "keytype" with
          | .error e => .error e
          | .ok keytype =>
            match decodeOptField decodeBool fs "managed" with
            | .error e => .error e
            | .ok managed => .ok ⟨dnskey, ds, keyflags, keytype, managed⟩
  | _ => .error "invalid type: expected struct DNSSECKeyInfo"

def decodeKeyList : Json → Except String (List DNSSECKeyInfo)
  | .arr xs => xs.mapM DNSSECKeyInfo.fromJson
  | _ => .error "invalid type: expected a sequence"

/-- Deserialization of `Domain` as derived by serde. -/
def Domain.fromJson : Json → Except String Domain
  | .obj fs =>
    match decodeOptField decodeString fs "created" with
    | .error e => .error e
    | .ok created =>
      match decodeOptField decodeKeyList fs "keys" with
      | .error e => .error e
      | .ok keys =>
        match decodeOptField decodeU16 fs "minimum_ttl" with
        | .error e => .error e
        | .ok minimum_ttl =>
          match decodeOptField decodeString fs "name" with
          | .error e => .error e
          | .ok name =>
            match decodeOptField decodeString fs "published" with
            | .error e => .error e
            | .ok published =>
              match decodeOptField decodeString fs "touched" with
              | .error e => .error e
              | .ok touched =>
                match decodeOptField decodeString fs "zonefile" with
                | .error e => .error e
                | .ok zonefile =>
                  .ok ⟨created, keys, minimum_ttl, name, published, touched, zonefile⟩
  | _ => .error "invalid type: expected struct Domain"

/-- `response.json::<Domain>()`: read the body text, parse it as JSON with
the external codec, then decode the struct; any failure is a decode error. -/
def decodeDomainBody (s : String) : Except String Domain :=
  match jsonParse s with
  | none => .error ("expected valid JSON, got: " ++ s)
  | some j => Domain.fromJson j

/-- `response.json::<DomainList>()`. -/
def decodeDomainListBody (s : String) : Except String DomainList :=
  match jsonParse s with
  | none => .error ("expected valid JSON, got: " ++ s)
  | some (Json.arr xs) => xs.mapM Domain.fromJson
  | some _ => .error "invalid type: expected a sequence"

/-- Modelled from the spec: outcome of reading a response body as text
(`reqwest::Response::text()`, fallible at the network layer). -/
inductive BodyRead where
  | ok (s : String)
  | err (e : String)
deriving DecidableEq, Repr

/-- Modelled from the spec: an HTTP response as delivered by the external
transport — a status code plus a readable body. -/
structure Response where
  status : Nat
  bodyRead : BodyRead
deriving DecidableEq, Repr

/-- Modelled from the spec: the outcome of one HTTP call — either a
response or a transport failure carrying no response at all. -/
inductive TransportResult where
  | ok (r : Response)
  | err (e : String)
deriving DecidableEq, Repr

/-- `response.text()`. -/
def Response.text (r : Response) : Except String String :=
  match r.bodyRead with
  | .ok s => .ok s
  | .err e => .error e

/-- `response.text().await.unwrap_or_default()`: body text, or the empty
string when the read fails. -/
def Response.textOrDefault (r : Response) : String :=
  match r.bodyRead with
  | .ok s => s
  | .err _ => ""

/-- `response.json::<Domain>()` on a response: a body-read failure or a
decode failure is one decode error. -/
def Response.jsonDomain (r : Response) : Except String Domain :=
  match r.bodyRead with
  | .ok s => decodeDomainBody s
  | .err e => .error e

/-- `response.json::<DomainList>()` on a response. -/
def Response.jsonDomainList (r : Response) : Except String DomainList :=
  match r.bodyRead with
  | .ok s => decodeDomainListBody s
  | .err e => .error e

/-- Modelled from the spec: the external transport collaborator
(`crate::Client`), supplying `get`, `post` and `delete` primitives that
return a status code and a body, or fail at the network layer. -/
structure Client where
  get : String → TransportResult
  post : String → String → TransportResult
  delete : String → TransportResult

/-- Modelled from the spec: the error taxonomy `crate::Error`, whose
constructors and payloads appear at every use site in src/src/domain.rs. -/
inductive Error where
  | Reqwest (e : String)
  | NotFound
  | ApiError (status : Nat) (body : String)
  | UnexpectedStatusCode (status : Nat) (body : String)
  | InvalidAPIResponse (e : String)
deriving DecidableEq, Repr

/-- `DomainClient` from src/src/domain.rs lines 5-7: a façade holding a
reference to the shared transport. -/
structure DomainClient where
  client : Client

/-- `Client::domain()` from src/src/domain.rs lines 9-13. -/
def Client.domain (c : Client) : DomainClient := ⟨c⟩

/-- The path of `POST /domains/` in `create_domain`. -/
def create_domain_path : String := "/domains/"

/-- The body built by `format!("\x7b\x7b\"name\": \"\x7bdomain\x7d\"\x7d\x7d")`
in `create_domain` (src/src/domain.rs line 55): literal interpolation of the
domain name between fixed fragments. -/
def create_domain_body (domain : String) : String :=
  String.singleton lbraceChar ++ "\"name\": \"" ++ domain ++ "\"" ++
    String.singleton rbraceChar

/-- The path of `GET /domains/` in `get_domains`. -/
def get_domains_path : String := "/domains/"

/-- The path built by `format!("/domains/\x7bdomain\x7d/")` in `get_domain`. -/
def get_domain_path (domain : String) : String := "/domains/" ++ domain ++ "/"

/-- The path built by `format!("/domains/\x7bdomain\x7d/")` in `delete_domain`. -/
def delete_domain_path (domain : String) : String := "/domains/" ++ domain ++ "/"

/-- The path built by `format!("/domains/?owns_qname=\x7bqname\x7d")` in
`get_owning_domain`. -/
def get_owning_domain_path (qname : String) : String := "/domains/?owns_qname=" ++ qname

/-- The path built by `format!("/domains/\x7bdomain\x7d/zonefile/")` in
`get_zonefile`. -/
def get_zonefile_path (domain : String) : String := "/domains/" ++ domain ++ "/zonefile/"

/-- `create_domain` from src/src/domain.rs lines 51-71, as a function of the
transport outcome for its one POST. -/
def DomainClient.create_domain (self : DomainClient) (domain : String) :
    Except Error Domain :=
  match self.client.post create_domain_path (create_domain_body domain) with
  | .ok response =>
    if response.status = 200 then
      match response.jsonDomain with
      | .ok d => .ok d
      | .error e => .error (.InvalidAPIResponse e)
    else if response.status = 400 then
      .error (.ApiError response.status response.textOrDefault)
    else
      .error (.UnexpectedStatusCode response.status response.textOrDefault)
  | .err e => .error (.Reqwest e)

/-- `get_domains` from src/src/domain.rs lines 73-85. -/
def DomainClient.get_domains (self : DomainClient) : Except Error DomainList :=
  match self.client.get get_domains_path with
  | .ok response =>
    if response.status = 200 then
      match response.jsonDomainList with
      | .ok l => .ok l
      | .error e => .error (.InvalidAPIResponse e)
    else
      .error (.UnexpectedStatusCode response.status response.textOrDefault)
  | .err e => .error (.Reqwest e)

/-- `get_domain` from src/src/domain.rs lines 87-104. -/
def DomainClient.get_domain (self : DomainClient) (domain : String) :
    Except Error Domain :=
  match self.client.get (get_domain_path domain) with
  | .ok response =>
    if response.status = 200 then
      match response.jsonDomain with
      | .ok d => .ok d
      | .error e => .error (.InvalidAPIResponse e)
    else if response.status = 404 then
      .error .NotFound
    else
      .error (.UnexpectedStatusCode response.status response.textOrDefault)
  | .err e => .error (.Reqwest e)

/-- `delete_domain` from src/src/domain.rs lines 106-122. -/
def DomainClient.delete_domain (self : DomainClient) (domain : String) :
    Except Error String :=
  match self.client.delete (delete_domain_path domain) with
  | .ok response =>
    if response.status = 204 then
      match response.text with
      | .ok s => .ok s
      | .error e => .error (.InvalidAPIResponse e)
    else
      .error (.UnexpectedStatusCode response.status response.textOrDefault)
  | .err e => .error (.Reqwest e)

/-- `get_owning_domain` from src/src/domain.rs lines 124-141. -/
def DomainClient.get_owning_domain (self : DomainClient) (qname : String) :
    Except Error Domain :=
  match self.client.get (get_owning_domain_path qname) with
  | .ok response =>
    if response.status = 200 then
      match response.jsonDomain with
      | .ok d => .ok d
      | .error e => .error (.InvalidAPIResponse e)
    else if response.status = 404 then
      .error .NotFound
    else
      .error (.UnexpectedStatusCode response.status response.textOrDefault)
  | .err e => .error (.Reqwest e)

/-- `get_zonefile` from src/src/domain.rs lines 143-159. -/
def DomainClient.get_zonefile (self : DomainClient) (domain : String) :
    Except Error String :=
  match self.client.get (get_zonefile_path domain) with
  | .ok response =>
    if response.status = 200 then
      match response.text with
      | .ok s => .ok s
      | .error e => .error (.InvalidAPIResponse e)
    else
      .error (.UnexpectedStatusCode response.status response.textOrDefault)
  | .err e => .error (.Reqwest e)

/-- A transport that answers every request with the same outcome; used to
instantiate theorems at concrete responses. -/
def mkClient (res : TransportResult) : Client :=
  ⟨fun _ => res, fun _ _ => res, fun _ => res⟩

instance {ε α : Type} [DecidableEq ε] [DecidableEq α] : DecidableEq (Except ε α) :=
  fun x y =>
    match x, y with
    | .ok a, .ok b =>
      if h : a = b then isTrue (by rw [h]) else isFalse (by simp [h])
    | .error a, .error b =>
      if h : a = b then isTrue (by rw [h]) else isFalse (by simp [h])
    | .ok _, .error _ => isFalse (by simp)
    | .error _, .ok _ => isFalse (by simp)

theorem decodeU16_inv (f : Fin 65536) :
    decodeU16 (Json.num (f.val : Int)) = Except.ok f := by
  rw [show ((f.val : Int)) = Int.ofNat f.val from rfl]
  simp [decodeU16, Fin.eta]

theorem mapM_loop_decodeString (l : List String) (acc : List String) :
    List.mapM.loop decodeString (l.map Json.str) acc = Except.ok (acc.reverse ++ l) := by
  induction l generalizing acc with
  | nil => simp [List.mapM.loop, Except.pure, pure]
  | cons a l ih =>
    have h1 : List.mapM.loop decodeString (List.map Json.str (a :: l)) acc
        = List.mapM.loop decodeString (List.map Json.str l) (a :: acc) := rfl
    rw [h1, ih]
    simp

/-- Decoding inverts encoding for `DNSSECKeyInfo`, for every value. -/
theorem keyinfo_roundtrip (x : DNSSECKeyInfo) :
    DNSSECKeyInfo.fromJson x.toJson = Except.ok x := by
  rcases x with ⟨d, ds, f, t, m⟩
  rcases d <;> rcases ds <;> rcases f <;> rcases t <;> rcases m <;>
    simp [DNSSECKeyInfo.toJson, DNSSECKeyInfo.fromJson, optEntry, getField,
      decodeOptField, decodeString, decodeU16_inv, decodeBool, decodeStringList,
      List.filter_append, mapM_loop_decodeString]

theorem mapM_loop_keyFromJson (l : List DNSSECKeyInfo) (acc : List DNSSECKeyInfo) :
    List.mapM.loop DNSSECKeyInfo.fromJson (l.map DNSSECKeyInfo.toJson) acc
    = Except.ok (acc.reverse ++ l) := by
  induction l generalizing acc with
  | nil => simp [List.mapM.loop, Except.pure, pure]
  | cons a l ih =>
    have h1 : List.mapM.loop DNSSECKeyInfo.fromJson
          (List.map DNSSECKeyInfo.toJson (a :: l)) acc
        = Except.bind (DNSSECKeyInfo.fromJson a.toJson)
            (fun y => List.mapM.loop DNSSECKeyInfo.fromJson
              (List.map DNSSECKeyInfo.toJson l) (y :: acc)) := rfl
    rw [h1, keyinfo_roundtrip]
    show List.mapM.loop DNSSECKeyInfo.fromJson (List.map DNSSECKeyInfo.toJson l)
        (a :: acc) = Except.ok (acc.reverse ++ a :: l)
    rw [ih]
    simp

/-- Decoding inverts encoding for `Domain`, for every value. -/
theorem domain_roundtrip (x : Domain) : Domain.fromJson x.toJson = Except.ok x := by
  rcases x with ⟨c, k, ttl, n, p, t, z⟩
  rcases c <;> rcases k <;> rcases ttl <;> rcases n <;> rcases p <;> rcases t <;>
    rcases z <;>
    simp [Domain.toJson, Domain.fromJson, optEntry, getField,
      decodeOptField, decodeString, decodeU16_inv, decodeKeyList,
      List.filter_append, mapM_loop_keyFromJson]

theorem mapM_loop_domainFromJson (l : List Domain) (acc : List Domain) :
    List.mapM.loop Domain.fromJson (l.map Domain.toJson) acc
    = Except.ok (acc.reverse ++ l) := by
  induction l generalizing acc with
  | nil => simp [List.mapM.loop, Except.pure, pure]
  | cons a l ih =>
    have h1 : List.mapM.loop Domain.fromJson (List.map Domain.toJson (a :: l)) acc
        = Except.bind (Domain.fromJson a.toJson)
            (fun y => List.mapM.loop Domain.fromJson (List.map Domain.toJson l)
              (y :: acc)) := rfl
    rw [h1, domain_roundtrip]
    show List.mapM.loop Domain.fromJson (List.map Domain.toJson l) (a :: acc)
        = Except.ok (acc.reverse ++ a :: l)
    rw [ih]
    simp

/-- Decoding a JSON array of encoded domains yields exactly that list of
domains, in the same order. -/
theorem domainList_fromJson_map (l : List Domain) :
    (l.map Domain.toJson).mapM Domain.fromJson = Except.ok l := by
  have h : (l.map Domain.toJson).mapM Domain.fromJson
      = List.mapM.loop Domain.fromJson (l.map Domain.toJson) [] := rfl
  rw [h, mapM_loop_domainFromJson]
  rfl

/-- C1: for every response received by create_domain: on status OK the body
is decoded as a `Domain` and returned unchanged field-for-field (in
particular a body that is the encoding of a domain value returns exactly
that value), and a decode failure yields `InvalidAPIResponse` carrying the
decode error text; on status BAD_REQUEST the result is `ApiError` carrying
that status and exactly the body text; on any other status the result is
`UnexpectedStatusCode` carrying that status and the body text. -/
theorem create_domain_response_mapping (c : Client) (domain : String) (r : Response)
    (h : c.post create_domain_path (create_domain_body domain) = .ok r) :
    (r.status = 200 →
      (∀ d : Domain, r.jsonDomain = .ok d →
        (c.domain).create_domain domain = .ok d)
      ∧ (∀ s : String, ∀ d : Domain, r.bodyRead = .ok s →
          jsonParse s = some d.toJson → (c.domain).create_domain domain = .ok d)
      ∧ (∀ e : String, r.jsonDomain = .error e →
          (c.domain).create_domain domain = .error (.InvalidAPIResponse e)))
    ∧ (r.status = 400 → ∀ s : String, r.bodyRead = .ok s →
        (c.domain).create_domain domain = .error (.ApiError r.status s))
    ∧ (r.status ≠ 200 → r.status ≠ 400 →
        (c.domain).create_domain domain
          = .error (.UnexpectedStatusCode r.status r.textOrDefault)) := by
  refine ⟨fun h200 => ⟨fun d hd => ?_, fun s d hs hp => ?_, fun e he => ?_⟩,
    fun h400 s hs => ?_, fun hn200 hn400 => ?_⟩
  · simp [DomainClient.create_domain, Client.domain, h, h200, hd]
  · have hd : r.jsonDomain = .ok d := by
      simp [Response.jsonDomain, hs, decodeDomainBody, hp, domain_roundtrip]
    simp [DomainClient.create_domain, Client.domain, h, h200, hd]
  · simp [DomainClient.create_domain, Client.domain, h, h200, he]
  · simp [DomainClient.create_domain, Client.domain, h, h400,
      Response.textOrDefault, hs]
  · simp [DomainClient.create_domain, Client.domain, h, hn200, hn400]

/-- Witness for C1 at concrete responses: a valid body on 200 returns the
domain, 400 returns ApiError with the body text, 500 returns
UnexpectedStatusCode with the body text. -/
theorem create_domain_response_mapping_witness :
    ((mkClient (.ok ⟨200, .ok "\x7b\"name\":\"example.com\"\x7d"⟩)).domain).create_domain
        "example.com" = .ok ⟨none, none, none, some "example.com", none, none, none⟩
    ∧ ((mkClient (.ok ⟨400, .ok "domain invalid"⟩)).domain).create_domain
        "example.com" = .error (.ApiError 400 "domain invalid")
    ∧ ((mkClient (.ok ⟨500, .ok "oops"⟩)).domain).create_domain
        "example.com" = .error (.UnexpectedStatusCode 500 "oops") := by
  refine ⟨?_, ?_, ?_⟩
  · exact ((create_domain_response_mapping _ "example.com"
      ⟨200, .ok "\x7b\"name\":\"example.com\"\x7d"⟩ rfl).1 rfl).1 _ (by decide)
  · exact (create_domain_response_mapping _ "example.com"
      ⟨400, .ok "domain invalid"⟩ rfl).2.1 rfl _ rfl
  · exact (create_domain_response_mapping _ "example.com"
      ⟨500, .ok "oops"⟩ rfl).2.2 (by decide) (by decide)

/-- C2: for each of the six operations, a transport failure is returned as
a transport error (`Error.Reqwest`) wrapping the failure; in the model a
transport failure carries no response, so no body is ever decoded. -/
theorem transport_error_mapping (c : Client) (e : String) (name domain qname : String) :
    (c.post create_domain_path (create_domain_body name) = .err e →
      (c.domain).create_domain name = .error (.Reqwest e))
    ∧ (c.get get_domains_path = .err e →
        (c.domain).get_domains = .error (.Reqwest e))
    ∧ (c.get (get_domain_path domain) = .err e →
        (c.domain).get_domain domain = .error (.Reqwest e))
    ∧ (c.delete (delete_domain_path domain) = .err e →
        (c.domain).delete_domain domain = .error (.Reqwest e))
    ∧ (c.get (get_owning_domain_path qname) = .err e →
        (c.domain).get_owning_domain qname = .error (.Reqwest e))
    ∧ (c.get (get_zonefile_path domain) = .err e →
        (c.domain).get_zonefile domain = .error (.Reqwest e)) := by
  refine ⟨fun h => ?_, fun h => ?_, fun h => ?_, fun h => ?_, fun h => ?_, fun h => ?_⟩
  · simp [DomainClient.create_domain, Client.domain, h]
  · simp [DomainClient.get_domains, Client.domain, h]
  · simp [DomainClient.get_domain, Client.domain, h]
  · simp [DomainClient.delete_domain, Client.domain, h]
  · simp [DomainClient.get_owning_domain, Client.domain, h]
  · simp [DomainClient.get_zonefile, Client.domain, h]

/-- Witness for C2: a failing transport makes all six operations return the
wrapped transport error. -/
theorem transport_error_mapping_witness :
    ((mkClient (.err "connection timed out")).domain).create_domain "a"
        = .error (.Reqwest "connection timed out")
    ∧ ((mkClient (.err "connection timed out")).domain).get_domains
        = .error (.Reqwest "connection timed out")
    ∧ ((mkClient (.err "connection timed out")).domain).get_domain "a"
        = .error (.Reqwest "connection timed out")
    ∧ ((mkClient (.err "connection timed out")).domain).delete_domain "a"
        = .error (.Reqwest "connection timed out")
    ∧ ((mkClient (.err "connection timed out")).domain).get_owning_domain "a"
        = .error (.Reqwest "connection timed out")
    ∧ ((mkClient (.err "connection timed out")).domain).get_zonefile "a"
        = .error (.Reqwest "connection timed out") := by
  have h := transport_error_mapping (mkClient (.err "connection timed out"))
    "connection timed out" "a" "a" "a"
  exact ⟨h.1 rfl, h.2.1 rfl, h.2.2.1 rfl, h.2.2.2.1 rfl, h.2.2.2.2.1 rfl,
    h.2.2.2.2.2 rfl⟩

/-- C4: for get_domain and get_owning_domain a NOT_FOUND response yields
`Error.NotFound`, a payload-free constructor carrying neither status nor
body text; an OK response with body \x7b"name":"example.com"\x7d yields the
`Domain` whose name is some "example.com" and whose other fields are all
`none`. -/
theorem notfound_and_ok_decode (c : Client) (domain qname : String)
    (r r2 : Response)
    (h1 : c.get (get_domain_path domain) = .ok r)
    (h2 : c.get (get_owning_domain_path qname) = .ok r2) :
    (r.status = 404 → (c.domain).get_domain domain = .error .NotFound)
    ∧ (r.status = 200 → r.bodyRead = .ok "\x7b\"name\":\"example.com\"\x7d" →
        (c.domain).get_domain domain
          = .ok ⟨none, none, none, some "example.com", none, none, none⟩)
    ∧ (r2.status = 404 → (c.domain).get_owning_domain qname = .error .NotFound)
    ∧ (r2.status = 200 → r2.bodyRead = .ok "\x7b\"name\":\"example.com\"\x7d" →
        (c.domain).get_owning_domain qname
          = .ok ⟨none, none, none, some "example.com", none, none, none⟩) := by
  have hdec : decodeDomainBody "\x7b\"name\":\"example.com\"\x7d"
      = Except.ok ⟨none, none, none, some "example.com", none, none, none⟩ := by
    decide
  refine ⟨fun h404 => ?_, fun h200 hb => ?_, fun h404 => ?_, fun h200 hb => ?_⟩
  · simp [DomainClient.get_domain, Client.domain, h1, h404]
  · simp [DomainClient.get_domain, Client.domain, h1, h200,
      Response.jsonDomain, hb, hdec]
  · simp [DomainClient.get_owning_domain, Client.domain, h2, h404]
  · simp [DomainClient.get_owning_domain, Client.domain, h2, h200,
      Response.jsonDomain, hb, hdec]

/-- Witness for C4 at concrete responses. -/
theorem notfound_and_ok_decode_witness :
    ((mkClient (.ok ⟨404, .ok ""⟩)).domain).get_domain "example.com"
        = .error .NotFound
    ∧ ((mkClient (.ok ⟨200, .ok "\x7b\"name\":\"example.com\"\x7d"⟩)).domain).get_domain
        "example.com" = .ok ⟨none, none, none, some "example.com", none, none, none⟩
    ∧ ((mkClient (.ok ⟨404, .ok ""⟩)).domain).get_owning_domain "www.example.com"
        = .error .NotFound
    ∧ ((mkClient (.ok ⟨200, .ok "\x7b\"name\":\"example.com\"\x7d"⟩)).domain).get_owning_domain
        "www.example.com"
        = .ok ⟨none, none, none, some "example.com", none, none, none⟩ := by
  refine ⟨?_, ?_, ?_, ?_⟩
  · exact (notfound_and_ok_decode (mkClient (.ok ⟨404, .ok ""⟩)) "example.com" "q"
      ⟨404, .ok ""⟩ ⟨404, .ok ""⟩ rfl rfl).1 rfl
  · exact (notfound_and_ok_decode
      (mkClient (.ok ⟨200, .ok "\x7b\"name\":\"example.com\"\x7d"⟩)) "example.com" "q"
      ⟨200, .ok "\x7b\"name\":\"example.com\"\x7d"⟩
      ⟨200, .ok "\x7b\"name\":\"example.com\"\x7d"⟩ rfl rfl).2.1 rfl rfl
  · exact (notfound_and_ok_decode (mkClient (.ok ⟨404, .ok ""⟩)) "d" "www.example.com"
      ⟨404, .ok ""⟩ ⟨404, .ok ""⟩ rfl rfl).2.2.1 rfl
  · exact (notfound_and_ok_decode
      (mkClient (.ok ⟨200, .ok "\x7b\"name\":\"example.com\"\x7d"⟩)) "d" "www.example.com"
      ⟨200, .ok "\x7b\"name\":\"example.com\"\x7d"⟩
      ⟨200, .ok "\x7b\"name\":\"example.com\"\x7d"⟩ rfl rfl).2.2.2 rfl rfl

/-- C5: delete_domain returns the body text verbatim (including the empty
string) on NO_CONTENT, an `InvalidAPIResponse` when the body read itself
fails on NO_CONTENT, and an `UnexpectedStatusCode` carrying status and body
text on every other status. -/
theorem delete_domain_mapping (c : Client) (domain : String) (r : Response)
    (h : c.delete (delete_domain_path domain) = .ok r) :
    (r.status = 204 → ∀ s : String, r.bodyRead = .ok s →
      (c.domain).delete_domain domain = .ok s)
    ∧ (r.status = 204 → ∀ e : String, r.bodyRead = .err e →
        (c.domain).delete_domain domain = .error (.InvalidAPIResponse e))
    ∧ (r.status ≠ 204 →
        (c.domain).delete_domain domain
          = .error (.UnexpectedStatusCode r.status r.textOrDefault)) := by
  refine ⟨fun h204 s hs => ?_, fun h204 e he => ?_, fun hn => ?_⟩
  · simp [DomainClient.delete_domain, Client.domain, h, h204, Response.text, hs]
  · simp [DomainClient.delete_domain, Client.domain, h, h204, Response.text, he]
  · simp [DomainClient.delete_domain, Client.domain, h, hn]

/-- Witness for C5: empty body on 204 is returned verbatim; 403 yields the
unexpected-status error with the body text. -/
theorem delete_domain_mapping_witness :
    ((mkClient (.ok ⟨204, .ok ""⟩)).domain).delete_domain "example.com" = .ok ""
    ∧ ((mkClient (.ok ⟨403, .ok "forbidden"⟩)).domain).delete_domain "example.com"
        = .error (.UnexpectedStatusCode 403 "forbidden") := by
  refine ⟨?_, ?_⟩
  · exact (delete_domain_mapping (mkClient (.ok ⟨204, .ok ""⟩)) "example.com"
      ⟨204, .ok ""⟩ rfl).1 rfl "" rfl
  · exact (delete_domain_mapping (mkClient (.ok ⟨403, .ok "forbidden"⟩)) "example.com"
      ⟨403, .ok "forbidden"⟩ rfl).2.2 (by decide)

/-- C6: get_zonefile returns the body text unmodified on status OK, yields
`UnexpectedStatusCode` carrying status and body text on every other status
(including NOT_FOUND), and can never produce `Error.NotFound`. -/
theorem get_zonefile_mapping (c : Client) (domain : String) (r : Response)
    (h : c.get (get_zonefile_path domain) = .ok r) :
    (r.status = 200 → ∀ s : String, r.bodyRead = .ok s →
      (c.domain).get_zonefile domain = .ok s)
    ∧ (r.status ≠ 200 →
        (c.domain).get_zonefile domain
          = .error (.UnexpectedStatusCode r.status r.textOrDefault))
    ∧ (c.domain).get_zonefile domain ≠ .error .NotFound := by
  refine ⟨fun h200 s hs => ?_, fun hn => ?_, ?_⟩
  · simp [DomainClient.get_zonefile, Client.domain, h, h200, Response.text, hs]
  · simp [DomainClient.get_zonefile, Client.domain, h, hn]
  · by_cases h200 : r.status = 200
    · cases ht : r.text with
      | ok s => simp [DomainClient.get_zonefile, Client.domain, h, h200, ht]
      | error e => simp [DomainClient.get_zonefile, Client.domain, h, h200, ht]
    · simp [DomainClient.get_zonefile, Client.domain, h, h200]

/-- Witness for C6: the zonefile text comes back byte-for-byte on 200, and
NOT_FOUND becomes an unexpected-status error, not a not-found error. -/
theorem get_zonefile_mapping_witness :
    ((mkClient (.ok ⟨200, .ok "$ORIGIN example.com.\n@ IN SOA ns1\n"⟩)).domain).get_zonefile
        "example.com" = .ok "$ORIGIN example.com.\n@ IN SOA ns1\n"
    ∧ ((mkClient (.ok ⟨404, .ok "not found"⟩)).domain).get_zonefile "example.com"
        = .error (.UnexpectedStatusCode 404 "not found")
    ∧ ((mkClient (.ok ⟨404, .ok "not found"⟩)).domain).get_zonefile "example.com"
        ≠ .error .NotFound := by
  refine ⟨?_, ?_, ?_⟩
  · exact (get_zonefile_mapping
      (mkClient (.ok ⟨200, .ok "$ORIGIN example.com.\n@ IN SOA ns1\n"⟩)) "example.com"
      ⟨200, .ok "$ORIGIN example.com.\n@ IN SOA ns1\n"⟩ rfl).1 rfl _ rfl
  · exact (get_zonefile_mapping (mkClient (.ok ⟨404, .ok "not found"⟩)) "example.com"
      ⟨404, .ok "not found"⟩ rfl).2.1 (by decide)
  · exact (get_zonefile_mapping (mkClient (.ok ⟨404, .ok "not found"⟩)) "example.com"
      ⟨404, .ok "not found"⟩ rfl).2.2

/-- C7: get_domains decodes an OK body that is an empty JSON array to the
empty list (a success), returns the decoded sequence in server order (a
body that is the encoding of a list of domains decodes to exactly that
list), and yields `UnexpectedStatusCode` carrying status and body text on
every non-OK status. -/
theorem get_domains_mapping (c : Client) (r : Response)
    (h : c.get get_domains_path = .ok r) :
    (r.status = 200 → r.bodyRead = .ok "[]" → (c.domain).get_domains = .ok [])
    ∧ (∀ l : DomainList, r.status = 200 → r.jsonDomainList = .ok l →
        (c.domain).get_domains = .ok l)
    ∧ (∀ l : DomainList, ∀ s : String, r.status = 200 → r.bodyRead = .ok s →
        jsonParse s = some (Json.arr (l.map Domain.toJson)) →
        (c.domain).get_domains = .ok l)
    ∧ (r.status ≠ 200 →
        (c.domain).get_domains
          = .error (.UnexpectedStatusCode r.status r.textOrDefault)) := by
  refine ⟨fun h200 hb => ?_, fun l h200 hl => ?_, fun l s h200 hs hp => ?_,
    fun hn => ?_⟩
  · have hd : r.jsonDomainList = .ok [] := by
      simp [Response.jsonDomainList, hb]
      rfl
    simp [DomainClient.get_domains, Client.domain, h, h200, hd]
  · simp [DomainClient.get_domains, Client.domain, h, h200, hl]
  · have hd : r.jsonDomainList = .ok l := by
      simp [Response.jsonDomainList, hs, decodeDomainListBody, hp,
        domainList_fromJson_map, mapM_loop_domainFromJson]
    simp [DomainClient.get_domains, Client.domain, h, h200, hd]
  · simp [DomainClient.get_domains, Client.domain, h, hn]

/-- Witness for C7: the empty array decodes to the empty list, a two-element
array decodes to the two domains in server order, and a 500 yields the
unexpected-status error. -/
theorem get_domains_mapping_witness :
    ((mkClient (.ok ⟨200, .ok "[]"⟩)).domain).get_domains = .ok []
    ∧ ((mkClient (.ok ⟨200,
          .ok "[\x7b\"name\":\"a\"\x7d,\x7b\"name\":\"b\"\x7d]"⟩)).domain).get_domains
        = .ok [⟨none, none, none, some "a", none, none, none⟩,
            ⟨none, none, none, some "b", none, none, none⟩]
    ∧ ((mkClient (.ok ⟨500, .ok "oops"⟩)).domain).get_domains
        = .error (.UnexpectedStatusCode 500 "oops") := by
  refine ⟨?_, ?_, ?_⟩
  · exact (get_domains_mapping (mkClient (.ok ⟨200, .ok "[]"⟩))
      ⟨200, .ok "[]"⟩ rfl).1 rfl rfl
  · exact (get_domains_mapping
      (mkClient (.ok ⟨200, .ok "[\x7b\"name\":\"a\"\x7d,\x7b\"name\":\"b\"\x7d]"⟩))
      ⟨200, .ok "[\x7b\"name\":\"a\"\x7d,\x7b\"name\":\"b\"\x7d]"⟩ rfl).2.2.1
      [⟨none, none, none, some "a", none, none, none⟩,
        ⟨none, none, none, some "b", none, none, none⟩]
      "[\x7b\"name\":\"a\"\x7d,\x7b\"name\":\"b\"\x7d]" rfl rfl rfl
  · exact (get_domains_mapping (mkClient (.ok ⟨500, .ok "oops"⟩))
      ⟨500, .ok "oops"⟩ rfl).2.2.2 (by decide)

/-- C10: when an operation is about to build `ApiError` or
`UnexpectedStatusCode` and reading the body text fails, the error is still
returned with the empty string as its text and the status preserved; the
read failure is not turned into a transport error. -/
theorem body_read_failure_kept (c : Client) (domain : String) (r : Response)
    (e : String) (hb : r.bodyRead = .err e) :
    (c.post create_domain_path (create_domain_body domain) = .ok r →
      r.status = 400 →
      (c.domain).create_domain domain = .error (.ApiError r.status ""))
    ∧ (c.post create_domain_path (create_domain_body domain) = .ok r →
        r.status ≠ 200 → r.status ≠ 400 →
        (c.domain).create_domain domain = .error (.UnexpectedStatusCode r.status ""))
    ∧ (c.delete (delete_domain_path domain) = .ok r → r.status ≠ 204 →
        (c.domain).delete_domain domain = .error (.UnexpectedStatusCode r.status ""))
    ∧ (c.get (get_zonefile_path domain) = .ok r → r.status ≠ 200 →
        (c.domain).get_zonefile domain = .error (.UnexpectedStatusCode r.status "")) := by
  refine ⟨fun h h400 => ?_, fun h hn hn4 => ?_, fun h hn => ?_, fun h hn => ?_⟩
  · simp [DomainClient.create_domain, Client.domain, h, h400,
      Response.textOrDefault, hb]
  · simp [DomainClient.create_domain, Client.domain, h, hn, hn4,
      Response.textOrDefault, hb]
  · simp [DomainClient.delete_domain, Client.domain, h, hn,
      Response.textOrDefault, hb]
  · simp [DomainClient.get_zonefile, Client.domain, h, hn,
      Response.textOrDefault, hb]

/-- Witness for C10: failed body reads still yield ApiError 400 "" and
UnexpectedStatusCode with empty text. -/
theorem body_read_failure_kept_witness :
    ((mkClient (.ok ⟨400, .err "read failed"⟩)).domain).create_domain "example.com"
        = .error (.ApiError 400 "")
    ∧ ((mkClient (.ok ⟨403, .err "read failed"⟩)).domain).delete_domain "example.com"
        = .error (.UnexpectedStatusCode 403 "")
    ∧ ((mkClient (.ok ⟨500, .err "read failed"⟩)).domain).get_zonefile "example.com"
        = .error (.UnexpectedStatusCode 500 "") := by
  refine ⟨?_, ?_, ?_⟩
  · exact (body_read_failure_kept (mkClient (.ok ⟨400, .err "read failed"⟩))
      "example.com" ⟨400, .err "read failed"⟩ "read failed" rfl).1 rfl rfl
  · exact (body_read_failure_kept (mkClient (.ok ⟨403, .err "read failed"⟩))
      "example.com" ⟨403, .err "read failed"⟩ "read failed" rfl).2.2.1 rfl (by decide)
  · exact (body_read_failure_kept (mkClient (.ok ⟨500, .err "read failed"⟩))
      "example.com" ⟨500, .err "read failed"⟩ "read failed" rfl).2.2.2 rfl (by decide)

theorem render_str (s : String) :
    (Json.str s).render
    = String.singleton quoteChar ++ escapeString s ++ String.singleton quoteChar := by
  simp [Json.render]

theorem render_obj_single (k : String) (v : Json) :
    (Json.obj [(k, v)]).render
    = String.singleton lbraceChar
      ++ (String.singleton quoteChar ++ escapeString k ++ String.singleton quoteChar
          ++ ": " ++ v.render)
      ++ String.singleton rbraceChar := by
  simp [Json.render, List.attach, List.attachWith, List.pmap, String.intercalate,
    String.intercalate.go]

theorem escapeChar_plain (c : Char) (h : plainChar c) :
    escapeChar c = String.singleton c := by
  obtain ⟨h1, h2, h3⟩ := h
  have e10 : c ≠ Char.ofNat 10 := by
    intro he
    rw [he] at h3
    exact absurd h3 (by decide)
  have e13 : c ≠ Char.ofNat 13 := by
    intro he
    rw [he] at h3
    exact absurd h3 (by decide)
  have e9 : c ≠ Char.ofNat 9 := by
    intro he
    rw [he] at h3
    exact absurd h3 (by decide)
  have h32 : ¬ (c.toNat < 32) := by omega
  simp [escapeChar, h1, h2, e10, e13, e9, h32]

theorem foldl_append_singleton (l : List Char) (acc : String) :
    (l.map String.singleton).foldl (fun r s => r ++ s) acc = acc ++ String.mk l := by
  induction l generalizing acc with
  | nil => simp
  | cons c l ih =>
    have hstep : acc ++ String.singleton c ++ String.mk l = acc ++ String.mk (c :: l) := by
      obtain ⟨d⟩ := acc
      show String.mk (d ++ [c] ++ l) = String.mk (d ++ (c :: l))
      simp
    simp only [List.map_cons, List.foldl_cons, ih, hstep]

/-- Escaping is the identity on strings of plain characters. -/
theorem escapeString_plain (s : String) (h : ∀ c ∈ s.data, plainChar c) :
    escapeString s = s := by
  obtain ⟨l⟩ := s
  show String.join (l.map escapeChar) = String.mk l
  have hmap : l.map escapeChar = l.map String.singleton :=
    List.map_congr_left (fun c hc => escapeChar_plain c (h c hc))
  rw [String.join, hmap, foldl_append_singleton]
  rfl

/-- C3 counterexample: for the domain name a"b the body built by
create_domain is not the JSON serialization of the object with the single
field "name" holding that name — the quote is interpolated without
escaping, and the resulting body is not even parseable as JSON. -/
theorem create_domain_body_escaping_cx :
    create_domain_body "a\"b" ≠ (Json.obj [("name", Json.str "a\"b")]).render
    ∧ jsonParse (create_domain_body "a\"b") = none := by
  constructor
  · rw [render_obj_single, render_str]
    decide
  · rfl

/-- C3 amended: for every domain name containing no character that JSON
string syntax requires an encoder to escape (no quote, no backslash, no
control character), the POST body built by create_domain is exactly the
JSON serialization of the object with the single field "name" holding that
name; a name containing such characters is interpolated verbatim and the
property fails. -/
theorem create_domain_body_serialization (domain : String)
    (h : ∀ c ∈ domain.data, plainChar c) :
    create_domain_body domain = (Json.obj [("name", Json.str domain)]).render := by
  rw [render_obj_single, render_str, escapeString_plain domain h,
    show escapeString "name" = "name" from rfl]
  show String.singleton lbraceChar ++ "\"name\": \"" ++ domain ++ "\""
      ++ String.singleton rbraceChar = _
  simp only [← String.append_assoc]
  congr 2

/-- Witness for C3 (amended) at the name example.com. -/
theorem create_domain_body_serialization_witness :
    create_domain_body "example.com"
      = (Json.obj [("name", Json.str "example.com")]).render :=
  create_domain_body_serialization "example.com" (by decide)

/-- C8: a Domain with only the name set serializes to exactly the
one-member object (no null members) and deserializes back to the identical
value; more generally decoding inverts encoding for every Domain and every
DNSSECKeyInfo, the all-absent values serialize to the empty object,
decoding the empty object yields all fields absent, and each single present
field serializes under its JSON name alone — keyflags under "flags". -/
theorem serde_omission_roundtrip :
    (∀ s : String, Domain.toJson ⟨none, none, none, some s, none, none, none⟩
        = Json.obj [("name", Json.str s)]
      ∧ Domain.fromJson (Domain.toJson ⟨none, none, none, some s, none, none, none⟩)
        = .ok ⟨none, none, none, some s, none, none, none⟩)
    ∧ (∀ x : Domain, Domain.fromJson x.toJson = .ok x)
    ∧ (∀ x : DNSSECKeyInfo, DNSSECKeyInfo.fromJson x.toJson = .ok x)
    ∧ Domain.toJson ⟨none, none, none, none, none, none, none⟩ = Json.obj []
    ∧ DNSSECKeyInfo.toJson ⟨none, none, none, none, none⟩ = Json.obj []
    ∧ Domain.fromJson (Json.obj []) = .ok ⟨none, none, none, none, none, none, none⟩
    ∧ DNSSECKeyInfo.fromJson (Json.obj []) = .ok ⟨none, none, none, none, none⟩
    ∧ (∀ v : String, Domain.toJson ⟨some v, none, none, none, none, none, none⟩
        = Json.obj [("created", Json.str v)])
    ∧ (∀ ks : List DNSSECKeyInfo,
        Domain.toJson ⟨none, some ks, none, none, none, none, none⟩
        = Json.obj [("keys", Json.arr (ks.map DNSSECKeyInfo.toJson))])
    ∧ (∀ t : Fin 65536, Domain.toJson ⟨none, none, some t, none, none, none, none⟩
        = Json.obj [("minimum_ttl", Json.num (t.val : Int))])
    ∧ (∀ v : String, Domain.toJson ⟨none, none, none, none, some v, none, none⟩
        = Json.obj [("published", Json.str v)])
    ∧ (∀ v : String, Domain.toJson ⟨none, none, none, none, none, some v, none⟩
        = Json.obj [("touched", Json.str v)])
    ∧ (∀ v : String, Domain.toJson ⟨none, none, none, none, none, none, some v⟩
        = Json.obj [("zonefile", Json.str v)])
    ∧ (∀ v : String, DNSSECKeyInfo.toJson ⟨some v, none, none, none, none⟩
        = Json.obj [("dnskey", Json.str v)])
    ∧ (∀ ds : List String, DNSSECKeyInfo.toJson ⟨none, some ds, none, none, none⟩
        = Json.obj [("ds", Json.arr (ds.map Json.str))])
    ∧ (∀ f : Fin 65536, DNSSECKeyInfo.toJson ⟨none, none, some f, none, none⟩
        = Json.obj [("flags", Json.num (f.val : Int))])
    ∧ (∀ v : String, DNSSECKeyInfo.toJson ⟨none, none, none, some v, none⟩
        = Json.obj [("keytype", Json.str v)])
    ∧ (∀ b : Bool, DNSSECKeyInfo.toJson ⟨none, none, none, none, some b⟩
        = Json.obj [("managed", Json.bool b)]) := by
  exact ⟨fun s => ⟨rfl, domain_roundtrip _⟩, domain_roundtrip, keyinfo_roundtrip,
    rfl, rfl, rfl, rfl, fun v => rfl, fun ks => rfl, fun t => rfl, fun v => rfl,
    fun v => rfl, fun v => rfl, fun v => rfl, fun ds => rfl, fun f => rfl,
    fun v => rfl, fun b => rfl⟩

/-- C9: every request target is built by literal string interpolation with
no escaping or URL-encoding, so an input containing path- or
query-significant characters is embedded verbatim and changes the requested
resource: asking get_domain for "example.com/zonefile" requests the same
target as get_zonefile for "example.com", and a qname containing
"&owns_qname=" injects a second query parameter. -/
theorem request_paths_literal (domain qname : String) :
    get_domain_path domain = "/domains/" ++ domain ++ "/"
    ∧ delete_domain_path domain = "/domains/" ++ domain ++ "/"
    ∧ get_zonefile_path domain = "/domains/" ++ domain ++ "/zonefile/"
    ∧ get_owning_domain_path qname = "/domains/?owns_qname=" ++ qname
    ∧ get_domain_path "example.com/zonefile" = get_zonefile_path "example.com"
    ∧ get_domain_path "a/b" = "/domains/a/b/"
    ∧ get_owning_domain_path "a&owns_qname=b" = "/domains/?owns_qname=a&owns_qname=b" :=
  ⟨rfl, rfl, rfl, rfl, by decide, by decide, by decide⟩
